import Mathlib

/-!
Shallow embedding of `src/lib.rs` of the `atspi` crate: the `Accessible`
node handle, its child accessors (`child_at_index`, `children`), the
composite snapshot `accessible_with_children`, and the asynchronous
child-enumeration iterator `ChildStream` (`poll_next`, `size_hint`).

Remote D-Bus calls are modelled by oracles: a call's reply is an input to
the embedded function (an `Except DBusError` value), so that every code
path of the source is represented, including error paths.  The `Arc`-shared
connection is modelled by an identity token (`Nat`): two handles share the
connection iff the tokens are equal.  `Duration` is modelled in whole
seconds.  Rust panics (from `.unwrap()` on an `Err`, and from polling an
already-completed `MethodReply`) are modelled as explicit outcomes, since
they are observable behaviour distinct from returning an error value.
-/

namespace Atspi

/-- A `dbus::Error`, abstract: only its presence matters to the code. -/
structure DBusError where
  msg : String
deriving DecidableEq, Repr

/-- Rust `Result<α, dbus::Error>`. -/
abbrev DBusResult (α : Type) := Except DBusError α

/-- Model of `std::time::Duration`, in whole seconds (the source only ever uses
`Duration::from_secs(1)`). -/
abbrev Duration := Nat

/-- The constant `TIMEOUT`: `Duration::from_secs(1)`. -/
def TIMEOUT : Duration := 1

/-- The shared `Arc<SyncConnection>`, modelled by an identity token:
`Arc::clone` hands out the same token, so handles share the connection
iff their tokens are equal. -/
abbrev SyncConnection := Nat

/-- The `dbus::nonblock::Proxy`: destination bus name, object path, per-call
timeout, and the shared connection. -/
structure Proxy where
  destination : String
  path : String
  timeout : Duration
  connection : SyncConnection
deriving DecidableEq, Repr

/-- The node handle: `pub struct Accessible` wraps a `Proxy`. -/
structure Accessible where
  proxy : Proxy
deriving DecidableEq, Repr

/-- Constructor `Accessible::with_timeout`: build a handle from destination, path,
connection and an explicit timeout. -/
def Accessible.with_timeout (destination path : String) (conn : SyncConnection)
    (timeout : Duration) : Accessible :=
  { proxy := { destination := destination, path := path,
               timeout := timeout, connection := conn } }

/-- Constructor `Accessible::new`: `Self::with_timeout(destination, path, conn, TIMEOUT)` —
the default one-second deadline. -/
def Accessible.new (destination path : String) (conn : SyncConnection) : Accessible :=
  Accessible.with_timeout destination path conn TIMEOUT

/-- Method `Accessible::child_at_index` (lines 101-114), as a function of the reply
of the one remote `GetChildAtIndex` call it issues.  An error reply is
propagated by `?`.  A successful `(dest, path)` reply equal to the
null-child sentinel — destination `"org.a11y.atspi.Registry"` and path
`"/org/a11y/atspi/null"`, compared by string equality — yields `Ok(None)`;
any other pair yields a new handle sharing this handle's connection and
carrying this handle's timeout. -/
def Accessible.child_at_index (self : Accessible)
    (reply : DBusResult (String × String)) : DBusResult (Option Accessible) :=
  match reply with
  | .error e => .error e
  | .ok (dest, path) =>
    if dest = "org.a11y.atspi.Registry" ∧ path = "/org/a11y/atspi/null" then
      .ok none
    else
      .ok (some (Accessible.with_timeout dest path self.proxy.connection
        self.proxy.timeout))

/-- Method `Accessible::children` (lines 120-129), as a function of the reply of the
one remote `GetChildren` call: every returned `(dest, path)` pair — with no
filtering of any kind — is mapped to a handle sharing this handle's
connection and timeout, in the order returned. -/
def Accessible.children (self : Accessible)
    (reply : DBusResult (List (String × String))) : DBusResult (List Accessible) :=
  match reply with
  | .error e => .error e
  | .ok cs =>
    .ok (cs.map (fun p => Accessible.with_timeout p.1 p.2 self.proxy.connection
      self.proxy.timeout))

/-!  The composite snapshot `accessible_with_children` (lines 50-58) and the
flat accessors it uses.  Every inner call's reply is `.unwrap()`-ed in the
source, so an error reply causes a Rust panic, not an `Err` return; we model
the panic as the error of an outer `Except String` layer (the panic
message), distinct from the inner `DBusResult` layer of the declared return
type. -/

/-- The replies of the remote calls the snapshot issues, one oracle per
interface member, each a function of the handle the call is issued on. -/
structure Env where
  characterCount : Accessible → DBusResult Int
  getText : Accessible → Int → Int → DBusResult String
  localizedRoleName : Accessible → DBusResult String
  getChildren : Accessible → DBusResult (List (String × String))

/-- A computation that may panic (`.unwrap()` on an `Err`): the error
carries the panic message. -/
abbrev Panics (α : Type) := Except String α

/-- Model of `Result::unwrap`: the value on `Ok`, a panic on `Err`. -/
def DBusResult.unwrapP {α : Type} : DBusResult α → Panics α
  | .ok a => .ok a
  | .error e => .error ("called Result::unwrap() on an Err value: " ++ e.msg)

/-- Method `Accessible::get_text` (lines 60-63): unwrap the `CharacterCount`
property (panicking on an error reply), then return the
`GetText(0, length)` reply as is. -/
def Accessible.get_text (env : Env) (self : Accessible) : Panics (DBusResult String) := do
  let length ← (env.characterCount self).unwrapP
  pure (env.getText self 0 length)

/-- The body of the per-child closure in `accessible_with_children`
(lines 53-56): `(c.get_text().await.unwrap(), c.localized_role_name().await.unwrap())`. -/
def childSnapshot (env : Env) (c : Accessible) : Panics (String × String) := do
  let t ← (← c.get_text env).unwrapP
  let r ← (env.localizedRoleName c).unwrapP
  pure (t, r)

/-- Method `Accessible::accessible_with_children` (lines 50-58): unwrap the
parent's text and localized role name, unwrap the `children()` listing,
collect every child's `(text, role)` pair in child order (each obtained by
unwrapping that child's calls), and return
`Ok(((text, role), children))`.  Any inner error reply panics through
`.unwrap()` before the `Ok` is ever built. -/
def Accessible.accessible_with_children (env : Env) (self : Accessible) :
    Panics (DBusResult ((String × String) × List (String × String))) := do
  let text ← (← self.get_text env).unwrapP
  let role ← (env.localizedRoleName self).unwrapP
  let childHandles ← (self.children (env.getChildren self)).unwrapP
  let children ← childHandles.mapM (fun c => childSnapshot env c)
  pure (.ok ((text, role), children))

/-!  The child-enumeration iterator `ChildStream` (lines 140-187).

The single in-flight `MethodReply` future is modelled by a token recording
the index the call was issued for and whether the future has already been
polled to completion (`consumed`).  The `consumed` flag is the future's own
internal state, not a field of the iterator: only assignments to `self.fut`
in the source change which token (if any) the `fut` field holds.  Polling a
`MethodReply` that already completed is a contract violation of the dbus
crate (it panics: the reply closure has been taken); the step function
reports it as the distinct outcome `panicked`, reached before any field of
the iterator is mutated. -/

/-- An in-flight `MethodReply<(String, Path)>`: the index
`get_child_at_index` was called with, and whether the future has already
been polled to completion. -/
structure FutToken where
  idx : Int
  consumed : Bool
deriving DecidableEq, Repr

/-- The iterator state `pub struct ChildStream` (lines 140-146): borrowed parent handle,
current index, total child count, retry flag, and the optional in-flight
call. -/
structure ChildStream where
  parent : Accessible
  current : Int
  total : Int
  retry : Bool
  fut : Option FutToken
deriving DecidableEq, Repr

/-- What one `poll_next` invocation observes of the in-flight call. -/
inductive CallPoll where
  /-- the reply has not arrived yet -/
  | pending
  /-- the call resolved with this result -/
  | ready (r : DBusResult (String × String))
deriving Repr

/-- The value of `Poll<Option<Self::Item>>` returned by one `poll_next`
invocation, plus the panic outcome of polling a consumed future. -/
inductive PollOut where
  /-- outcome `Poll::Ready(None)`: the stream is exhausted -/
  | done
  /-- outcome `Poll::Pending` -/
  | pending
  /-- outcome `Poll::Ready(Some(r))`: one item -/
  | item (r : DBusResult Accessible)
  /-- polled the stored `MethodReply` after it already completed -/
  | panicked
deriving Repr

/-- Lines 163-175 of `poll_next`: the in-flight call (token `t`) has just
resolved with `res`.  Resolving consumes the future, so `fut` now holds the
consumed token; then `if res.is_err() && !self.retry` the index is advanced
and the future discarded; finally `Poll::Ready(Some(res.map(...)))` is
returned, a successful `(dest, path)` being mapped through
`Accessible::new(dest, path, conn)` with the parent's connection (and hence
the default `TIMEOUT`, not the parent's timeout). -/
def ChildStream.resolveStep (s : ChildStream) (t : FutToken)
    (res : DBusResult (String × String)) : ChildStream × PollOut :=
  let sc : ChildStream := { s with fut := some ⟨t.idx, true⟩ }
  match res with
  | .error e =>
    if s.retry then
      (sc, .item (.error e))
    else
      ({ sc with current := s.current + 1, fut := none }, .item (.error e))
  | .ok dp =>
    (sc, .item (.ok (Accessible.new dp.1 dp.2 s.parent.proxy.connection)))

/-- Method `ChildStream::poll_next` (lines 151-175) as a state transition.
`resolve i` is what polling the in-flight call for index `i` observes at
this invocation.  If `current >= total`, return `Ready(None)` at once.
Otherwise take the stored future, or issue `get_child_at_index(current)`
and store it.  Polling a future that already completed panics (before any
mutation).  A pending future leaves the state (apart from the issuance)
untouched.  A resolved future is handled by `resolveStep`. -/
def ChildStream.poll_next (resolve : Int → CallPoll) (s : ChildStream) :
    ChildStream × PollOut :=
  if s.total ≤ s.current then
    (s, .done)
  else
    let t := s.fut.getD ⟨s.current, false⟩
    if t.consumed then
      (s, .panicked)
    else
      match resolve t.idx with
      | .pending => ({ s with fut := some t }, .pending)
      | .ready res => ChildStream.resolveStep { s with fut := some t } t res

/-- Method `ChildStream::size_hint` (lines 177-186):
`(self.total as usize, if self.retry { None } else { Some(self.total as usize) })`.
The `as usize` cast is faithful for `0 ≤ total` (the only states the claims
concern); `Int.toNat` models it. -/
def ChildStream.size_hint (s : ChildStream) : Nat × Option Nat :=
  (s.total.toNat, if s.retry then none else some s.total.toNat)

/-- Iterate `poll_next` `n` times from `s`, keeping only the final state. -/
def ChildStream.stepN (resolve : Int → CallPoll) (s : ChildStream) : Nat → ChildStream
  | 0 => s
  | n + 1 => ChildStream.stepN resolve (ChildStream.poll_next resolve s).1 n

/-- Iterate `poll_next` `n` times from `s`, collecting the outputs in order. -/
def ChildStream.outputs (resolve : Int → CallPoll) (s : ChildStream) : Nat → List PollOut
  | 0 => []
  | n + 1 =>
    (ChildStream.poll_next resolve s).2 ::
      ChildStream.outputs resolve (ChildStream.poll_next resolve s).1 n

/-!  Theorems.  Each claim of the specification is settled by one theorem
below (with a witness where the theorem carries hypotheses, and a
counterexample where the claim had to be corrected). -/

/-- C5: if the remote `GetChildAtIndex` call returns a pair exactly equal
(string equality) to the null-child sentinel — destination
`"org.a11y.atspi.Registry"` paired with path `"/org/a11y/atspi/null"` —
then `child_at_index` resolves to `Ok(None)`: never to an error and never
to a handle whose identity equals the sentinel.  For any other returned
pair it returns a new handle for exactly that pair (with the parent's
connection and timeout). -/
theorem child_at_index_sentinel_spec (a : Accessible) (dest path : String) :
    (dest = "org.a11y.atspi.Registry" ∧ path = "/org/a11y/atspi/null" →
      a.child_at_index (.ok (dest, path)) = .ok none)
    ∧ (¬(dest = "org.a11y.atspi.Registry" ∧ path = "/org/a11y/atspi/null") →
      a.child_at_index (.ok (dest, path)) =
        .ok (some (Accessible.with_timeout dest path a.proxy.connection
          a.proxy.timeout))) := by
  refine ⟨fun h => ?_, fun h => ?_⟩
  · simp only [Accessible.child_at_index, if_pos h]
  · simp only [Accessible.child_at_index, if_neg h]

/-- Witness for C5: the sentinel reply yields `Ok(None)`; a non-sentinel
reply (same registry destination, different path) yields a fresh handle. -/
theorem child_at_index_sentinel_spec_witness :
    (Accessible.new "app" "/w" 3).child_at_index
        (.ok ("org.a11y.atspi.Registry", "/org/a11y/atspi/null")) = .ok none
    ∧ (Accessible.new "app" "/w" 3).child_at_index
        (.ok ("org.a11y.atspi.Registry", "/widget")) =
      .ok (some (Accessible.with_timeout "org.a11y.atspi.Registry" "/widget" 3 1)) :=
  ⟨(child_at_index_sentinel_spec (Accessible.new "app" "/w" 3)
      "org.a11y.atspi.Registry" "/org/a11y/atspi/null").1 ⟨rfl, rfl⟩,
   (child_at_index_sentinel_spec (Accessible.new "app" "/w" 3)
      "org.a11y.atspi.Registry" "/widget").2 (by simp)⟩

/-- C9: `children()` maps every returned `(endpoint, path)` pair — the
null-child sentinel pair included, nothing is filtered out — into a node
handle, preserving the returned order, so the result is exactly the map of
the handle constructor over the returned list and its length equals the
number of returned pairs. -/
theorem children_maps_every_pair (a : Accessible) (pairs : List (String × String)) :
    a.children (.ok pairs) =
      .ok (pairs.map fun p =>
        Accessible.with_timeout p.1 p.2 a.proxy.connection a.proxy.timeout)
    ∧ (∀ l, a.children (.ok pairs) = .ok l → l.length = pairs.length) := by
  refine ⟨rfl, fun l hl => ?_⟩
  have h2 : (pairs.map fun p =>
      Accessible.with_timeout p.1 p.2 a.proxy.connection a.proxy.timeout) = l := by
    have := hl
    simp only [Accessible.children, Except.ok.injEq] at this
    exact this
  rw [← h2, List.length_map]

/-- Witness for C9: a reply containing the sentinel pair is mapped
unfiltered, in order, with length preserved. -/
theorem children_maps_every_pair_witness :
    (Accessible.new "app" "/w" 5).children
        (.ok [("org.a11y.atspi.Registry", "/org/a11y/atspi/null"), ("x", "/y")]) =
      .ok [Accessible.with_timeout "org.a11y.atspi.Registry" "/org/a11y/atspi/null" 5 1,
        Accessible.with_timeout "x" "/y" 5 1]
    ∧ [Accessible.with_timeout "org.a11y.atspi.Registry" "/org/a11y/atspi/null" 5 1,
        Accessible.with_timeout "x" "/y" 5 1].length = 2 :=
  ⟨(children_maps_every_pair (Accessible.new "app" "/w" 5)
      [("org.a11y.atspi.Registry", "/org/a11y/atspi/null"), ("x", "/y")]).1,
   (children_maps_every_pair (Accessible.new "app" "/w" 5)
      [("org.a11y.atspi.Registry", "/org/a11y/atspi/null"), ("x", "/y")]).2 _
     (children_maps_every_pair (Accessible.new "app" "/w" 5)
      [("org.a11y.atspi.Registry", "/org/a11y/atspi/null"), ("x", "/y")]).1⟩

/-- Resolver for the C7 counterexample: the call for every index fails. -/
def c7Resolve : Int → CallPoll := fun _ => .ready (.error ⟨"call failed"⟩)

/-- Start state for the C7 counterexample: fresh iterator, `total = 2`,
`retry = false`. -/
def c7Start : ChildStream := ⟨Accessible.new "app" "/root" 4, 0, 2, false, none⟩

/-- C7 counterexample: after one poll (an error with `retry = false`), the
iterator is in the reachable state `current = 1`, `total = 2`, yet
`size_hint` still reports `(2, some 2)` — not the claimed
`(total - current, some (total - current)) = (1, some 1)`.  The code
returns `self.total`, ignoring `current`. -/
theorem size_hint_ignores_current_counterexample :
    (ChildStream.stepN c7Resolve c7Start 1).current = 1
    ∧ (ChildStream.stepN c7Resolve c7Start 1).total = 2
    ∧ (ChildStream.stepN c7Resolve c7Start 1).retry = false
    ∧ ChildStream.size_hint (ChildStream.stepN c7Resolve c7Start 1) = (2, some 2)
    ∧ ((2 : Nat), some (2 : Nat)) ≠ ((1 : Nat), some (1 : Nat)) :=
  ⟨rfl, rfl, rfl, rfl, by decide⟩

/-- C7 amended: at every point in the iterator's life, `size_hint` reports
a lower bound equal to `total` (as a `usize`, i.e. `Int.toNat`) — not
`total - current` — and an upper bound equal to that same value when
`retry = false` and no upper bound when `retry = true`; the report is
independent of `current`. -/
theorem size_hint_reports_total (s : ChildStream) :
    s.size_hint = (s.total.toNat, if s.retry then none else some s.total.toNat)
    ∧ ∀ c : Int, ChildStream.size_hint { s with current := c } = s.size_hint :=
  ⟨rfl, fun _ => rfl⟩

/-- Parent handle for the C2 counterexample, with a non-default deadline of
2 seconds. -/
def c2Parent : Accessible := Accessible.with_timeout "app" "/root" 7 2

/-- C2 counterexample: a successful item of the child-enumeration iterator
over a parent whose deadline is 2 seconds is built by `Accessible::new`,
so it carries the default deadline `TIMEOUT = 1` — not the parent's
deadline 2 (it does share the parent's connection, 7). -/
theorem childStream_item_drops_parent_deadline :
    (ChildStream.poll_next (fun _ => .ready (.ok ("d", "/p")))
        ⟨c2Parent, 0, 1, false, none⟩).2 =
      .item (.ok (Accessible.new "d" "/p" 7))
    ∧ (Accessible.new "d" "/p" 7).proxy.timeout = 1
    ∧ c2Parent.proxy.timeout = 2
    ∧ (1 : Nat) ≠ 2 :=
  ⟨rfl, rfl, rfl, by decide⟩

/-- C2 amended: a child handle produced by `child_at_index` or by
`children()` carries the parent's shared connection and the parent's
deadline; a successful item of the child-enumeration iterator carries the
parent's shared connection but the default deadline `TIMEOUT` (1 second),
not the parent's. -/
theorem produced_child_connection_deadline (a : Accessible) :
    (∀ dest path : String, ∀ c : Accessible,
      a.child_at_index (.ok (dest, path)) = .ok (some c) →
        c.proxy.connection = a.proxy.connection ∧ c.proxy.timeout = a.proxy.timeout)
    ∧ (∀ pairs : List (String × String), ∀ l : List Accessible,
      a.children (.ok pairs) = .ok l → ∀ x ∈ l,
        x.proxy.connection = a.proxy.connection ∧ x.proxy.timeout = a.proxy.timeout)
    ∧ (∀ s : ChildStream, ∀ resolve : Int → CallPoll, ∀ x : Accessible,
      s.parent = a → (s.poll_next resolve).2 = .item (.ok x) →
        x.proxy.connection = a.proxy.connection ∧ x.proxy.timeout = TIMEOUT) := by
  refine ⟨fun dest path c h => ?_, fun pairs l h x hx => ?_, fun s resolve x hp h => ?_⟩
  · by_cases hs : dest = "org.a11y.atspi.Registry" ∧ path = "/org/a11y/atspi/null"
    · simp only [Accessible.child_at_index, if_pos hs] at h
      exact absurd h (by simp)
    · simp only [Accessible.child_at_index, if_neg hs, Except.ok.injEq,
        Option.some.injEq] at h
      subst h
      exact ⟨rfl, rfl⟩
  · simp only [Accessible.children, Except.ok.injEq] at h
    subst h
    simp only [List.mem_map] at hx
    obtain ⟨p, _, hpx⟩ := hx
    subst hpx
    exact ⟨rfl, rfl⟩
  · subst hp
    unfold ChildStream.poll_next at h
    split at h
    · exact absurd h (by simp)
    · dsimp only at h
      split at h
      · exact absurd h (by simp)
      · split at h
        · exact absurd h (by simp)
        · unfold ChildStream.resolveStep at h
          split at h
          · split at h <;> exact absurd h (by simp)
          · simp only [PollOut.item.injEq, Except.ok.injEq] at h
            subst h
            exact ⟨rfl, rfl⟩

/-- Witness for C2 amended: instantiated for a parent with connection 7 and
deadline 2 — the `child_at_index` child and a `children()` child keep
deadline 2, the stream item keeps connection 7 with deadline `TIMEOUT`. -/
theorem produced_child_connection_deadline_witness :
    ((Accessible.with_timeout "d" "/p" 7 2).proxy.connection = c2Parent.proxy.connection
      ∧ (Accessible.with_timeout "d" "/p" 7 2).proxy.timeout = c2Parent.proxy.timeout)
    ∧ ((Accessible.with_timeout "d" "/p" 7 2).proxy.connection = c2Parent.proxy.connection
      ∧ (Accessible.with_timeout "d" "/p" 7 2).proxy.timeout = c2Parent.proxy.timeout)
    ∧ ((Accessible.new "d" "/p" 7).proxy.connection = c2Parent.proxy.connection
      ∧ (Accessible.new "d" "/p" 7).proxy.timeout = TIMEOUT) :=
  ⟨(produced_child_connection_deadline c2Parent).1 "d" "/p"
      (Accessible.with_timeout "d" "/p" 7 2) rfl,
   (produced_child_connection_deadline c2Parent).2.1 [("d", "/p")]
      [Accessible.with_timeout "d" "/p" 7 2] rfl _ (by simp),
   (produced_child_connection_deadline c2Parent).2.2
      ⟨c2Parent, 0, 1, false, none⟩ (fun _ => .ready (.ok ("d", "/p")))
      (Accessible.new "d" "/p" 7) rfl rfl⟩

/-- Helper: one `poll_next` step never changes `parent`, `total` or
`retry`. -/
theorem pollNext_frame (resolve : Int → CallPoll) (s : ChildStream) :
    (s.poll_next resolve).1.parent = s.parent
    ∧ (s.poll_next resolve).1.total = s.total
    ∧ (s.poll_next resolve).1.retry = s.retry := by
  unfold ChildStream.poll_next
  split
  · exact ⟨rfl, rfl, rfl⟩
  · dsimp only
    split
    · exact ⟨rfl, rfl, rfl⟩
    · split
      · exact ⟨rfl, rfl, rfl⟩
      · unfold ChildStream.resolveStep
        split
        · split
          · exact ⟨rfl, rfl, rfl⟩
          · exact ⟨rfl, rfl, rfl⟩
        · exact ⟨rfl, rfl, rfl⟩

/-- Helper: one `poll_next` step either leaves `current` unchanged or
advances it by exactly 1, the latter only from a state with
`current < total`. -/
theorem pollNext_current_cases (resolve : Int → CallPoll) (s : ChildStream) :
    (s.poll_next resolve).1.current = s.current
    ∨ ((s.poll_next resolve).1.current = s.current + 1 ∧ s.current < s.total) := by
  unfold ChildStream.poll_next
  split
  next => exact Or.inl rfl
  next hle =>
    dsimp only
    split
    next => exact Or.inl rfl
    next =>
      split
      next => exact Or.inl rfl
      next =>
        unfold ChildStream.resolveStep
        split
        next =>
          split
          next => exact Or.inl rfl
          next => exact Or.inr ⟨rfl, lt_of_not_le hle⟩
        next => exact Or.inl rfl

/-- Helper: with `retry = true`, one `poll_next` step never changes
`current`. -/
theorem pollNext_current_of_retry (resolve : Int → CallPoll) (s : ChildStream)
    (h : s.retry = true) : (s.poll_next resolve).1.current = s.current := by
  unfold ChildStream.poll_next
  split
  next => rfl
  next =>
    dsimp only
    split
    next => rfl
    next =>
      split
      next => rfl
      next =>
        unfold ChildStream.resolveStep
        split
        next =>
          split
          next => rfl
          next hr => exact absurd h (by simpa using hr)
        next => rfl

/-- Helper: with `retry = true`, `current` is unchanged by any number of
steps. -/
theorem stepN_current_of_retry (resolve : Int → CallPoll) :
    ∀ (n : Nat) (s : ChildStream), s.retry = true →
      (ChildStream.stepN resolve s n).current = s.current
  | 0, _, _ => rfl
  | n + 1, s, h => by
    rw [ChildStream.stepN]
    rw [stepN_current_of_retry resolve n (s.poll_next resolve).1
      (by rw [(pollNext_frame resolve s).2.2]; exact h)]
    exact pollNext_current_of_retry resolve s h

/-- Helper: an exhausted iterator (`total ≤ current`) returns
`Ready(None)` and is left exactly as it was. -/
theorem pollNext_exhausted (resolve : Int → CallPoll) (s : ChildStream)
    (h : s.total ≤ s.current) : s.poll_next resolve = (s, .done) := by
  unfold ChildStream.poll_next
  rw [if_pos h]

/-- Helper: an exhausted iterator is a fixed point of stepping. -/
theorem stepN_exhausted (resolve : Int → CallPoll) :
    ∀ (n : Nat) (s : ChildStream), s.total ≤ s.current →
      ChildStream.stepN resolve s n = s
  | 0, _, _ => rfl
  | n + 1, s, h => by
    rw [ChildStream.stepN, pollNext_exhausted resolve s h]
    exact stepN_exhausted resolve n s h

/-- Helper: an exhausted iterator only ever outputs `Ready(None)`. -/
theorem outputs_exhausted (resolve : Int → CallPoll) :
    ∀ (n : Nat) (s : ChildStream), s.total ≤ s.current →
      ChildStream.outputs resolve s n = List.replicate n PollOut.done
  | 0, _, _ => rfl
  | n + 1, s, h => by
    rw [ChildStream.outputs, pollNext_exhausted resolve s h, List.replicate_succ]
    exact congrArg (PollOut.done :: ·) (outputs_exhausted resolve n s h)

/-- Helper: one step preserves `0 ≤ current ≤ total`. -/
theorem pollNext_bounds (resolve : Int → CallPoll) (s : ChildStream)
    (h0 : 0 ≤ s.current) (h1 : s.current ≤ s.total) :
    0 ≤ (s.poll_next resolve).1.current
    ∧ (s.poll_next resolve).1.current ≤ (s.poll_next resolve).1.total := by
  have ht := (pollNext_frame resolve s).2.1
  rcases pollNext_current_cases resolve s with hc | ⟨hc, hlt⟩
  · rw [hc, ht]; exact ⟨h0, h1⟩
  · rw [hc, ht]; omega

/-- Helper: the bounds `0 ≤ current ≤ total` hold after any number of
steps. -/
theorem stepN_bounds (resolve : Int → CallPoll) :
    ∀ (n : Nat) (s : ChildStream), 0 ≤ s.current → s.current ≤ s.total →
      0 ≤ (ChildStream.stepN resolve s n).current
      ∧ (ChildStream.stepN resolve s n).current ≤ (ChildStream.stepN resolve s n).total
  | 0, _, h0, h1 => ⟨h0, h1⟩
  | n + 1, s, h0, h1 => by
    rw [ChildStream.stepN]
    exact stepN_bounds resolve n (s.poll_next resolve).1
      (pollNext_bounds resolve s h0 h1).1 (pollNext_bounds resolve s h0 h1).2

/-- C4: with `retry = true`, whenever the in-flight call resolves as a
failure the outstanding call is not discarded (the `fut` field still holds
the very call that was polled, now completed) and `current` is not
advanced, while the failure is still yielded as this step's item; moreover
`current` never changes over any number of steps, so the iterator never
advances past a persistently failing index (livelock). -/
theorem childStream_retry_true_never_advances (resolve : Int → CallPoll)
    (s : ChildStream) (hr : s.retry = true) :
    (∀ t : FutToken, ∀ e : DBusError,
      s.current < s.total → s.fut.getD ⟨s.current, false⟩ = t → t.consumed = false →
      resolve t.idx = .ready (.error e) →
        (s.poll_next resolve).1.fut = some ⟨t.idx, true⟩
        ∧ (s.poll_next resolve).1.current = s.current
        ∧ (s.poll_next resolve).2 = .item (.error e))
    ∧ ∀ n : Nat, (ChildStream.stepN resolve s n).current = s.current := by
  refine ⟨fun t e hlt hget hcons hres => ?_, fun n => stepN_current_of_retry resolve n s hr⟩
  have hnle : ¬ s.total ≤ s.current := not_le.mpr hlt
  simp only [ChildStream.poll_next, if_neg hnle, hget, hcons, Bool.false_eq_true,
    if_false, hres, ChildStream.resolveStep, hr, if_true]
  exact ⟨trivial, trivial, trivial⟩

/-- Resolver for the C4 witness: every call fails. -/
def c4Resolve : Int → CallPoll := fun _ => .ready (.error ⟨"boom"⟩)

/-- Start state for the C4 witness: fresh iterator with `retry = true`. -/
def c4Start : ChildStream := ⟨Accessible.new "app" "/root" 2, 0, 3, true, none⟩

/-- Witness for C4: over an always-failing resolver with `retry = true`,
one poll keeps the completed call and the index while yielding the
failure, and five polls leave `current` at 0. -/
theorem childStream_retry_true_never_advances_witness :
    ((ChildStream.poll_next c4Resolve c4Start).1.fut = some ⟨0, true⟩
      ∧ (ChildStream.poll_next c4Resolve c4Start).1.current = 0
      ∧ (ChildStream.poll_next c4Resolve c4Start).2 = .item (.error ⟨"boom"⟩))
    ∧ (ChildStream.stepN c4Resolve c4Start 5).current = 0 :=
  ⟨(childStream_retry_true_never_advances c4Resolve c4Start rfl).1 ⟨0, false⟩ ⟨"boom"⟩
      (by decide) rfl rfl rfl,
   (childStream_retry_true_never_advances c4Resolve c4Start rfl).2 5⟩

/-- C8: from any state with `0 ≤ current ≤ total` (in particular from the
initial state `current = 0` of any enumeration with `0 ≤ total`), the
bounds `0 ≤ current ≤ total` hold after every number of poll steps; and
once `current ≥ total` the iterator is a fixed point: every subsequent
poll leaves the state untouched and produces `Ready(None)` — no item,
ever, and no restart. -/
theorem childStream_current_bounds_and_exhaustion (resolve : Int → CallPoll)
    (s : ChildStream) (h0 : 0 ≤ s.current) (h1 : s.current ≤ s.total) :
    (∀ n : Nat, 0 ≤ (ChildStream.stepN resolve s n).current
      ∧ (ChildStream.stepN resolve s n).current ≤ (ChildStream.stepN resolve s n).total)
    ∧ (s.total ≤ s.current →
        (∀ n : Nat, ChildStream.stepN resolve s n = s)
        ∧ ∀ n : Nat, ChildStream.outputs resolve s n = List.replicate n PollOut.done) :=
  ⟨fun n => stepN_bounds resolve n s h0 h1,
   fun hex => ⟨fun n => stepN_exhausted resolve n s hex,
     fun n => outputs_exhausted resolve n s hex⟩⟩

/-- Resolver for the C8 witness (never consulted: the iterator is born
exhausted). -/
def c8Resolve : Int → CallPoll := fun _ => .pending

/-- Start state for the C8 witness: `current = total = 0`. -/
def c8Start : ChildStream := ⟨Accessible.new "app" "/root" 1, 0, 0, false, none⟩

/-- Witness for C8: the zero-child iterator keeps its bounds, is a fixed
point of stepping, and outputs only `Ready(None)`. -/
theorem childStream_current_bounds_and_exhaustion_witness :
    (0 ≤ (ChildStream.stepN c8Resolve c8Start 3).current
      ∧ (ChildStream.stepN c8Resolve c8Start 3).current
        ≤ (ChildStream.stepN c8Resolve c8Start 3).total)
    ∧ ChildStream.stepN c8Resolve c8Start 4 = c8Start
    ∧ ChildStream.outputs c8Resolve c8Start 4 = List.replicate 4 PollOut.done :=
  ⟨(childStream_current_bounds_and_exhaustion c8Resolve c8Start (by decide) (by decide)).1 3,
   ((childStream_current_bounds_and_exhaustion c8Resolve c8Start (by decide) (by decide)).2
      (by decide)).1 4,
   ((childStream_current_bounds_and_exhaustion c8Resolve c8Start (by decide) (by decide)).2
      (by decide)).2 4⟩

/-- C10: in the resolution handler of `poll_next` (lines 163-175), the
fields `current` and `fut` are mutated only on the branch where the
resolved call failed and `retry = false` (there: `current` advances by
exactly 1 and the call is discarded); on every other resolution — success
with any `retry`, or failure with `retry = true` — `current` is unchanged
and the `fut` field still holds the very call that was polled (now
completed: the `consumed` flag is the future's own internal state, not an
iterator field); and no other field (`parent`, `total`, `retry`) is ever
mutated. -/
theorem resolveStep_mutation_frame (s : ChildStream) (t : FutToken)
    (res : DBusResult (String × String)) :
    ((∃ e, res = .error e) ∧ s.retry = false →
      (s.resolveStep t res).1.current = s.current + 1
      ∧ (s.resolveStep t res).1.fut = none)
    ∧ (¬((∃ e, res = .error e) ∧ s.retry = false) →
      (s.resolveStep t res).1.current = s.current
      ∧ (s.resolveStep t res).1.fut = some ⟨t.idx, true⟩)
    ∧ (s.resolveStep t res).1.parent = s.parent
    ∧ (s.resolveStep t res).1.total = s.total
    ∧ (s.resolveStep t res).1.retry = s.retry := by
  refine ⟨fun h => ?_, fun hn => ?_, ?_⟩
  · obtain ⟨⟨e, he⟩, hr⟩ := h
    subst he
    simp only [ChildStream.resolveStep, hr, Bool.false_eq_true, if_false]
    exact ⟨trivial, trivial⟩
  · cases res with
    | ok dp => exact ⟨rfl, rfl⟩
    | error e =>
      have hr : s.retry = true := by
        cases hb : s.retry with
        | false => exact absurd ⟨⟨e, rfl⟩, hb⟩ hn
        | true => rfl
      simp only [ChildStream.resolveStep, hr, if_true]
      exact ⟨trivial, trivial⟩
  · cases res with
    | ok dp => exact ⟨rfl, rfl, rfl⟩
    | error e =>
      cases hb : s.retry with
      | false =>
        simp only [ChildStream.resolveStep, hb, Bool.false_eq_true, if_false]
        exact ⟨trivial, trivial, trivial⟩
      | true =>
        simp only [ChildStream.resolveStep, hb, if_true]
        exact ⟨trivial, trivial, trivial⟩

/-- State for the C10 witness: mid-enumeration, `current = 3`,
`retry = false`, the call for index 3 in flight. -/
def c10State : ChildStream := ⟨Accessible.new "app" "/root" 2, 3, 9, false, some ⟨3, false⟩⟩

/-- Witness for C10: a failed resolution with `retry = false` advances
`current` and discards the call; a successful resolution leaves `current`
and the stored call in place; `parent` is untouched. -/
theorem resolveStep_mutation_frame_witness :
    ((c10State.resolveStep ⟨3, false⟩ (.error ⟨"boom"⟩)).1.current = c10State.current + 1
      ∧ (c10State.resolveStep ⟨3, false⟩ (.error ⟨"boom"⟩)).1.fut = none)
    ∧ ((c10State.resolveStep ⟨3, false⟩ (.ok ("d", "/p"))).1.current = c10State.current
      ∧ (c10State.resolveStep ⟨3, false⟩ (.ok ("d", "/p"))).1.fut = some ⟨3, true⟩)
    ∧ (c10State.resolveStep ⟨3, false⟩ (.ok ("d", "/p"))).1.parent = c10State.parent :=
  ⟨(resolveStep_mutation_frame c10State ⟨3, false⟩ (.error ⟨"boom"⟩)).1 ⟨⟨⟨"boom"⟩, rfl⟩, rfl⟩,
   (resolveStep_mutation_frame c10State ⟨3, false⟩ (.ok ("d", "/p"))).2.1
      (fun h => Except.noConfusion h.1.choose_spec),
   (resolveStep_mutation_frame c10State ⟨3, false⟩ (.ok ("d", "/p"))).2.2.1⟩

/-- Resolver for the C1 evidence: the call for every index succeeds. -/
def c1Resolve : Int → CallPoll := fun _ => .ready (.ok ("child", "/c"))

/-- Start state for the C1 evidence: fresh iterator, `total = 1`,
`retry = false`. -/
def c1Start : ChildStream := ⟨Accessible.new "app" "/root" 4, 0, 1, false, none⟩

/-- C1 evidence (code bug): with `retry = false` and every underlying call
succeeding, `total = 1`, the first poll yields the item for index 0 but —
because the success branch neither advances `current` nor discards the
completed call — the iterator is left at `current = 0` with `fut` holding
the already-completed call, so the second poll re-polls a consumed
`MethodReply` (a panic in the dbus crate) instead of ending the stream:
the claimed "exactly `total` items, one per index, then nothing further"
never happens for any `total ≥ 1` with a successful index. -/
theorem childStream_success_leaves_state_stuck :
    ChildStream.outputs c1Resolve c1Start 2 =
      [.item (.ok (Accessible.new "child" "/c" 4)), .panicked]
    ∧ (ChildStream.stepN c1Resolve c1Start 1).current = 0
    ∧ (ChildStream.stepN c1Resolve c1Start 1).fut = some ⟨0, true⟩ :=
  ⟨rfl, rfl, rfl⟩

/-- Resolver for the C3 evidence: the calls for indices 2 and 5 fail, all
others succeed. -/
def c3Resolve : Int → CallPoll := fun i =>
  if i = 2 ∨ i = 5 then .ready (.error ⟨"call failed"⟩)
  else .ready (.ok ("child", "/c"))

/-- Start state for the C3 evidence: fresh iterator, `total = 8`,
`retry = false`. -/
def c3Start : ChildStream := ⟨Accessible.new "app" "/root" 4, 0, 8, false, none⟩

/-- C3 evidence (code bug): in the scenario `total = 8`, `retry = false`,
failures exactly at indices 2 and 5, the claimed 8-item run never happens:
the success at index 0 leaves `current = 0` and the completed call in
`fut`, so every later poll re-polls a consumed `MethodReply` (panic);
indices 1..7 — including the failing indices 2 and 5 — are never reached.
(The failure branch by itself does advance past a failing index, but it is
only reachable while `current` still points at a failing index.) -/
theorem childStream_mixed_failure_scenario_stalls :
    ChildStream.outputs c3Resolve c3Start 3 =
      [.item (.ok (Accessible.new "child" "/c" 4)), .panicked, .panicked]
    ∧ (ChildStream.stepN c3Resolve c3Start 3).current = 0 :=
  ⟨rfl, rfl⟩

/-- The text lookup of one node fails: its `CharacterCount` call errors,
or that succeeds and the `GetText` call errors. -/
def textCallFails (env : Env) (c : Accessible) : Prop :=
  (∃ e, env.characterCount c = .error e)
  ∨ ∃ len, env.characterCount c = .ok len ∧ ∃ e, env.getText c 0 len = .error e

/-- Some inner call of the composite snapshot over `a` fails: the parent's
character count, text extraction, role, the children listing, or — for
some child handle of the listing — that child's text or role. -/
def snapshotInnerFailure (env : Env) (a : Accessible) : Prop :=
  textCallFails env a
  ∨ (∃ e, env.localizedRoleName a = .error e)
  ∨ (∃ e, env.getChildren a = .error e)
  ∨ ∃ pairs, env.getChildren a = .ok pairs ∧
      ∃ c ∈ pairs.map (fun p =>
          Accessible.with_timeout p.1 p.2 a.proxy.connection a.proxy.timeout),
        textCallFails env c ∨ ∃ e, env.localizedRoleName c = .error e

/-- Helper: a successful bind over `Panics` has a successful first stage. -/
theorem panics_bind_ok {α β : Type} {m : Panics α} {f : α → Panics β} {b : β}
    (h : m.bind f = .ok b) : ∃ a, m = .ok a ∧ f a = .ok b := by
  cases m with
  | ok a => exact ⟨a, rfl, h⟩
  | error e => exact Except.noConfusion h

/-- Helper: a successful `unwrap` means the reply was `Ok`. -/
theorem unwrapP_ok {α : Type} {r : DBusResult α} {a : α}
    (h : r.unwrapP = .ok a) : r = .ok a := by
  cases r with
  | ok x => cases h; rfl
  | error e => exact Except.noConfusion h

/-- Helper: `unwrap` of an error reply panics. -/
theorem unwrapP_error {α : Type} {r : DBusResult α} {e : DBusError}
    (h : r = .error e) : ∃ m, r.unwrapP = Except.error m := by
  subst h
  exact ⟨_, rfl⟩

/-- Helper: a successful `mapM` over `Panics` means every element
succeeded. -/
theorem mapM_ok_mem {α β : Type} {f : α → Panics β} :
    ∀ {l : List α} {w : List β}, l.mapM f = .ok w → ∀ c ∈ l, ∃ y, f c = .ok y := by
  intro l
  induction l with
  | nil => intro w _ c hc; exact absurd hc (List.not_mem_nil c)
  | cons a as ih =>
    intro w h c hc
    rw [List.mapM_cons] at h
    obtain ⟨y, hy, h2⟩ := panics_bind_ok h
    obtain ⟨ys, hys, _⟩ := panics_bind_ok h2
    rcases List.mem_cons.mp hc with hc | hc
    · exact ⟨y, hc ▸ hy⟩
    · exact ih hys c hc

/-- Helper: if every element maps successfully, `mapM` succeeds with the
pointwise map. -/
theorem mapM_ok_of_forall {α β : Type} {f : α → Panics β} {g : α → β} :
    ∀ {l : List α}, (∀ c ∈ l, f c = .ok (g c)) → l.mapM f = .ok (l.map g) := by
  intro l
  induction l with
  | nil => intro _; rfl
  | cons a as ih =>
    intro h
    rw [List.mapM_cons, h a (List.mem_cons_self a as),
      ih (fun c hc => h c (List.mem_cons_of_mem a hc))]
    rfl

/-- Helper: if the composite snapshot returns without panicking, then none
of its inner calls failed. -/
theorem accessible_with_children_ok_no_failure (env : Env) (a : Accessible)
    {v : DBusResult ((String × String) × List (String × String))}
    (h : a.accessible_with_children env = .ok v) :
    ¬ snapshotInnerFailure env a := by
  unfold Accessible.accessible_with_children at h
  simp only [bind, pure] at h
  obtain ⟨tr, htr, h⟩ := panics_bind_ok h
  obtain ⟨text, htext, h⟩ := panics_bind_ok h
  obtain ⟨role, hrole, h⟩ := panics_bind_ok h
  obtain ⟨handles, hhandles, h⟩ := panics_bind_ok h
  obtain ⟨childPairs, hchildPairs, _⟩ := panics_bind_ok h
  unfold Accessible.get_text at htr
  simp only [bind, pure] at htr
  obtain ⟨len, hlen, htr⟩ := panics_bind_ok htr
  have hlen2 := unwrapP_ok hlen
  cases htr
  have htext2 := unwrapP_ok htext
  have hrole2 := unwrapP_ok hrole
  have hchildren := unwrapP_ok hhandles
  have hpairs : ∃ pairs, env.getChildren a = .ok pairs ∧
      handles = pairs.map (fun p =>
        Accessible.with_timeout p.1 p.2 a.proxy.connection a.proxy.timeout) := by
    cases hg : env.getChildren a with
    | error e =>
      rw [hg] at hchildren
      simp only [Accessible.children] at hchildren
      exact Except.noConfusion hchildren
    | ok pairs =>
      rw [hg] at hchildren
      simp only [Accessible.children, Except.ok.injEq] at hchildren
      exact ⟨pairs, rfl, hchildren.symm⟩
  obtain ⟨pairs, hg, hmap⟩ := hpairs
  rintro (hf | ⟨e, he⟩ | ⟨e, he⟩ | ⟨pairs2, hg2, c, hc, hcf⟩)
  · simp only [textCallFails] at hf
    rcases hf with ⟨e, he⟩ | ⟨len2, hlen3, e, he⟩
    · rw [he] at hlen2; exact Except.noConfusion hlen2
    · rw [hlen3] at hlen2
      cases hlen2
      rw [he] at htext2
      exact Except.noConfusion htext2
  · rw [he] at hrole2; exact Except.noConfusion hrole2
  · rw [he] at hg; exact Except.noConfusion hg
  · rw [hg2] at hg
    cases hg
    rw [← hmap] at hc
    obtain ⟨y, hy⟩ := mapM_ok_mem hchildPairs c hc
    unfold childSnapshot at hy
    simp only [bind, pure] at hy
    obtain ⟨ctr, hctr, hy⟩ := panics_bind_ok hy
    obtain ⟨ctext, hctext, hy⟩ := panics_bind_ok hy
    obtain ⟨crole, hcrole, _⟩ := panics_bind_ok hy
    unfold Accessible.get_text at hctr
    simp only [bind, pure] at hctr
    obtain ⟨clen, hclen, hctr⟩ := panics_bind_ok hctr
    have hclen2 := unwrapP_ok hclen
    cases hctr
    have hctext2 := unwrapP_ok hctext
    have hcrole2 := unwrapP_ok hcrole
    simp only [textCallFails] at hcf
    rcases hcf with (⟨e, he⟩ | ⟨len2, hlen3, e, he⟩) | ⟨e, he⟩
    · rw [he] at hclen2; exact Except.noConfusion hclen2
    · rw [hlen3] at hclen2
      cases hclen2
      rw [he] at hctext2
      exact Except.noConfusion hctext2
    · rw [he] at hcrole2; exact Except.noConfusion hcrole2

/-- C6: if any single inner call of the composite snapshot fails — the
parent's character count, its text extraction, its role, the children
listing, or any child's text or role — the whole snapshot is an overall
failure (in the source, the failing reply is `.unwrap()`-ed, i.e. the call
panics before the `Ok` is ever built) and no partial result is produced;
when every inner call succeeds, the snapshot pairs the parent's
`(text, role)` with the children's `(text, role)` pairs in the original
child-index order. -/
theorem accessible_with_children_spec (env : Env) (a : Accessible) :
    (snapshotInnerFailure env a →
      ∃ m : String, a.accessible_with_children env = .error m)
    ∧ ∀ (len : Int) (text role : String) (pairs : List (String × String))
        (cpair : Accessible → String × String),
        env.characterCount a = .ok len →
        env.getText a 0 len = .ok text →
        env.localizedRoleName a = .ok role →
        env.getChildren a = .ok pairs →
        (∀ c ∈ pairs.map (fun p =>
            Accessible.with_timeout p.1 p.2 a.proxy.connection a.proxy.timeout),
          childSnapshot env c = .ok (cpair c)) →
        a.accessible_with_children env =
          .ok (.ok ((text, role),
            (pairs.map (fun p =>
              Accessible.with_timeout p.1 p.2 a.proxy.connection
                a.proxy.timeout)).map cpair)) := by
  refine ⟨fun hf => ?_, fun len text role pairs cpair h1 h2 h3 h4 h5 => ?_⟩
  · cases h : a.accessible_with_children env with
    | error m => exact ⟨m, rfl⟩
    | ok v => exact absurd hf (accessible_with_children_ok_no_failure env a h)
  · simp only [Accessible.accessible_with_children, Accessible.get_text, h1, h2, h3, h4,
      Accessible.children, DBusResult.unwrapP, bind, Except.bind, pure, Except.pure,
      mapM_ok_of_forall h5]

/-- Environment for the C6 witness: every call succeeds, the parent has
two children. -/
def c6Env : Env :=
  { characterCount := fun _ => .ok 5
    getText := fun _ _ _ => .ok "txt"
    localizedRoleName := fun _ => .ok "role"
    getChildren := fun _ => .ok [("x", "/1"), ("y", "/2")] }

/-- Environment for the C6 witness, failing half: the role call errors. -/
def c6EnvBad : Env :=
  { c6Env with localizedRoleName := fun _ => .error ⟨"no role"⟩ }

/-- Parent handle for the C6 witness. -/
def c6Parent : Accessible := Accessible.new "app" "/root" 6

/-- Witness for C6: with a failing role call the snapshot is an overall
failure; with all calls succeeding it is the ordered pairing. -/
theorem accessible_with_children_spec_witness :
    (∃ m : String, c6Parent.accessible_with_children c6EnvBad = .error m)
    ∧ c6Parent.accessible_with_children c6Env =
      .ok (.ok (("txt", "role"), [("txt", "role"), ("txt", "role")])) :=
  ⟨(accessible_with_children_spec c6EnvBad c6Parent).1
      (Or.inr (Or.inl ⟨⟨"no role"⟩, rfl⟩)),
   (accessible_with_children_spec c6Env c6Parent).2 5 "txt" "role"
      [("x", "/1"), ("y", "/2")] (fun _ => ("txt", "role")) rfl rfl rfl rfl
      (fun _ _ => rfl)⟩

end Atspi
